import Mathlib

/-!
# Ledgerly UK — verification of the ledger / reporting engine

Shallow embedding of the bookkeeping core: the report generators of
`src/pages/Reports.tsx` (Trial Balance, Profit & Loss, Balance Sheet, VAT
return), the line-item tax calculators of `src/pages/Invoices.tsx` and the
Bills page, the bank-reconciliation logic of the Banking page
(`getMatchingSuggestions`, `handleReconcile`), and the journal-validation
contract.

Monetary values are embedded as exact rationals (`ℚ`): the store's columns
are `DECIMAL(12,2)` and the design treats amounts as fixed-precision
decimals, so decimal arithmetic is the intended semantics of the
JavaScript number operations appearing in the source.  Dates are embedded
as integers ordered chronologically, matching the ISO-string comparisons
used by the date-range queries.
-/

namespace Ledgerly

attribute [local semireducible] Rat.add Rat.mul Rat.sub Rat.inv

/-- Left-fold summation, mirroring the JavaScript
`array.reduce((sum, x) => sum + f(x), 0)` idiom used throughout
`Reports.tsx`. -/
def sumBy (f : α → ℚ) (l : List α) : ℚ :=
  l.foldl (fun s a => s + f a) 0

/-- A `journal_lines` row as fetched by `Reports.tsx`, joined to its
`chart_of_accounts` row (`account_name`, `account_type`) and its parent
journal's `date`. -/
structure JournalLineRow where
  account_name : String
  account_type : String
  debit_amount : ℚ
  credit_amount : ℚ
  date : Int
deriving DecidableEq, Repr

/-! ## Trial Balance (`generateTrialBalance`, `Reports.tsx:194-229`) -/

/-- One entry of the `accountBalances` accumulator of
`generateTrialBalance`. -/
structure TBAccount where
  account_name : String
  account_type : String
  debit : ℚ
  credit : ℚ
deriving DecidableEq, Repr

/-- Processing one journal line into the `accountBalances` accumulator:
the first line seen for an account name creates the entry (taking that
line's `account_type`), later lines add onto its `debit`/`credit`.
JavaScript object keys preserve insertion order, so the accumulator is an
ordered association list. -/
def addTB : List TBAccount → JournalLineRow → List TBAccount
  | [], l => [⟨l.account_name, l.account_type, l.debit_amount, l.credit_amount⟩]
  | a :: as, l =>
    if a.account_name == l.account_name then
      ⟨a.account_name, a.account_type, a.debit + l.debit_amount,
        a.credit + l.credit_amount⟩ :: as
    else
      a :: addTB as l

structure TrialBalance where
  accounts : List TBAccount
  totalDebits : ℚ
  totalCredits : ℚ
  balanced : Bool
deriving Repr

/-- `generateTrialBalance` of `Reports.tsx`: group all fetched journal
lines by account name, total the debits and credits, and set
`balanced = Math.abs(totalDebits - totalCredits) < 0.01`. -/
def generateTrialBalance (rows : List JournalLineRow) : TrialBalance :=
  let accounts := rows.foldl addTB []
  let totalDebits := sumBy (fun a => a.debit) accounts
  let totalCredits := sumBy (fun a => a.credit) accounts
  { accounts := accounts
    totalDebits := totalDebits
    totalCredits := totalCredits
    balanced := decide (|totalDebits - totalCredits| < (1 / 100 : ℚ)) }

/-! ## Balance Sheet (`generateBalanceSheet`, `Reports.tsx:139-192`)

The balance-sheet query selects `journal_lines` joined to
`chart_of_accounts` with **no** date predicate of any kind, so the fold
receives every journal line in the store regardless of the page's
`dateRange`. -/

structure BSRow where
  account_name : String
  balance : ℚ
deriving DecidableEq, Repr

/-- `targetArray.find(...)` + `existing.balance += balance` / `push`:
find the entry with this account name and add to it, else append. -/
def addBalance : List BSRow → String → ℚ → List BSRow
  | [], name, amt => [⟨name, amt⟩]
  | r :: rs, name, amt =>
    if r.account_name == name then
      ⟨r.account_name, r.balance + amt⟩ :: rs
    else
      r :: addBalance rs name amt

/-- One step of the balance-sheet fold: assets accumulate
`debit - credit`, liabilities and equity accumulate `credit - debit`,
any other account type is skipped. -/
def bsStep (acc : List BSRow × List BSRow × List BSRow)
    (l : JournalLineRow) : List BSRow × List BSRow × List BSRow :=
  if l.account_type == "asset" then
    (addBalance acc.1 l.account_name (l.debit_amount - l.credit_amount),
      acc.2.1, acc.2.2)
  else if l.account_type == "liability" then
    (acc.1,
      addBalance acc.2.1 l.account_name (l.credit_amount - l.debit_amount),
      acc.2.2)
  else if l.account_type == "equity" then
    (acc.1, acc.2.1,
      addBalance acc.2.2 l.account_name (l.credit_amount - l.debit_amount))
  else
    acc

structure BalanceSheet where
  assets : List BSRow
  liabilities : List BSRow
  equity : List BSRow
  totalAssets : ℚ
  totalLiabilities : ℚ
  totalEquity : ℚ
deriving Repr

/-- `generateBalanceSheet` of `Reports.tsx`: fold every fetched journal
line into the three per-type account lists and total each list. -/
def generateBalanceSheet (rows : List JournalLineRow) : BalanceSheet :=
  let acc := rows.foldl bsStep ([], [], [])
  { assets := acc.1
    liabilities := acc.2.1
    equity := acc.2.2
    totalAssets := sumBy (fun r => r.balance) acc.1
    totalLiabilities := sumBy (fun r => r.balance) acc.2.1
    totalEquity := sumBy (fun r => r.balance) acc.2.2 }

/-- The balance-sheet read path of the Reports page: the supabase query
issued by `generateBalanceSheet` carries no `gte`/`lte` date filter, so
the report is computed from the full set of journal lines and the
page's `from`/`to` range plays no part. -/
def balanceSheetReport (db : List JournalLineRow) (_dateFrom _dateTo : Int) :
    BalanceSheet :=
  generateBalanceSheet db

/-! ## Profit & Loss (`generateProfitLoss`, `Reports.tsx:85-137`) -/

structure PLRow where
  account_name : String
  total : ℚ
deriving DecidableEq, Repr

/-- `array.find(...)` + `existing.total += amount` / `push` on the
`income` / `expenses` arrays of `generateProfitLoss`. -/
def addPL : List PLRow → String → ℚ → List PLRow
  | [], name, amt => [⟨name, amt⟩]
  | r :: rs, name, amt =>
    if r.account_name == name then
      ⟨r.account_name, r.total + amt⟩ :: rs
    else
      r :: addPL rs name amt

/-- One step of the profit-and-loss fold: income accounts accumulate
`credit - debit`, expense accounts accumulate `debit - credit`, other
account types are skipped. -/
def plStep (acc : List PLRow × List PLRow) (l : JournalLineRow) :
    List PLRow × List PLRow :=
  if l.account_type == "income" then
    (addPL acc.1 l.account_name (l.credit_amount - l.debit_amount), acc.2)
  else if l.account_type == "expense" then
    (acc.1, addPL acc.2 l.account_name (l.debit_amount - l.credit_amount))
  else
    acc

structure ProfitLoss where
  income : List PLRow
  expenses : List PLRow
  totalIncome : ℚ
  totalExpenses : ℚ
  netProfit : ℚ
deriving Repr

/-- `generateProfitLoss` of `Reports.tsx`: fold the fetched journal
lines into per-account income and expense rows and total each list.
No row is ever removed from either list. -/
def generateProfitLoss (rows : List JournalLineRow) : ProfitLoss :=
  let acc := rows.foldl plStep ([], [])
  let totalIncome := sumBy (fun r => r.total) acc.1
  let totalExpenses := sumBy (fun r => r.total) acc.2
  { income := acc.1
    expenses := acc.2
    totalIncome := totalIncome
    totalExpenses := totalExpenses
    netProfit := totalIncome - totalExpenses }

/-- The profit-and-loss read path: the query restricts journal lines to
those whose parent journal's date lies in the inclusive `[from, to]`
range, and the fold runs over the restriction. -/
def profitLossReport (db : List JournalLineRow) (dateFrom dateTo : Int) :
    ProfitLoss :=
  generateProfitLoss
    (db.filter (fun l => decide (dateFrom ≤ l.date) && decide (l.date ≤ dateTo)))

/-! ## VAT return (`generateVATReturn`, `Reports.tsx:231-265`) -/

/-- An `invoices` row as selected by `generateVATReturn`
(`vat_amount, total, date`), carried together with its `status` column
(one of draft / sent / paid / overdue / cancelled) to show the
aggregation never consults it. -/
structure InvoiceRow where
  vat_amount : ℚ
  total : ℚ
  date : Int
  status : String
deriving DecidableEq, Repr

/-- A `bills` row as selected by `generateVATReturn`. -/
structure BillRow where
  vat_amount : ℚ
  total : ℚ
  date : Int
  status : String
deriving DecidableEq, Repr

structure VatReturn where
  box1 : ℚ
  box2 : ℚ
  box3 : ℚ
  box4 : ℚ
  box5 : ℚ
  box6 : ℚ
  box7 : ℚ
  box8 : ℚ
  box9 : ℚ
deriving DecidableEq, Repr

/-- `generateVATReturn` of `Reports.tsx`: both queries filter on the
`date` column alone (`gte from`, `lte to`); the nine boxes are sums over
the rows so fetched. -/
def generateVATReturn (invoices : List InvoiceRow) (bills : List BillRow)
    (dateFrom dateTo : Int) : VatReturn :=
  let invs := invoices.filter
    (fun i => decide (dateFrom ≤ i.date) && decide (i.date ≤ dateTo))
  let bls := bills.filter
    (fun b => decide (dateFrom ≤ b.date) && decide (b.date ≤ dateTo))
  let box1 := sumBy (fun i => i.vat_amount) invs
  let box2 : ℚ := 0
  let box3 := box1 + box2
  let box4 := sumBy (fun b => b.vat_amount) bls
  let box5 := box3 - box4
  let box6 := sumBy (fun i => i.total - i.vat_amount) invs
  let box7 := sumBy (fun b => b.total - b.vat_amount) bls
  { box1 := box1, box2 := box2, box3 := box3, box4 := box4, box5 := box5
    box6 := box6, box7 := box7, box8 := 0, box9 := 0 }

/-! ## Line-item tax calculators -/

/-- A `tax_codes` row: identity plus `rate` (a percentage such as
`20.00`). -/
structure TaxCode where
  id : String
  rate : ℚ
deriving DecidableEq, Repr

namespace Invoices

/-- A line of the invoice form as passed to `calculateLineTotal` of
`Invoices.tsx` (`tax_code_id` is the raw select value, `""` when unset). -/
structure LineInput where
  quantity : ℚ
  unit_price : ℚ
  tax_code_id : String
deriving DecidableEq, Repr

/-- `calculateLineTotal` of `Invoices.tsx:100-105`: look the tax code up,
take `lineTotal = quantity * unit_price` and
`vatAmount = taxCode ? (lineTotal * taxCode.rate) / 100 : 0`.  No
rounding is applied anywhere and no gross figure is produced. -/
def calculateLineTotal (taxCodes : List TaxCode) (line : LineInput) :
    ℚ × ℚ :=
  let taxCode := taxCodes.find? (fun tc => tc.id == line.tax_code_id)
  let lineTotal := line.quantity * line.unit_price
  let vatAmount := match taxCode with
    | some tc => (lineTotal * tc.rate) / 100
    | none => 0
  (lineTotal, vatAmount)

/-- The row inserted into `invoice_lines` by `createInvoice`
(`Invoices.tsx:176-187`): `line_total` is the first component of
`calculateLineTotal`, `vat_amount` the second. -/
def lineData (taxCodes : List TaxCode) (line : LineInput) : ℚ × ℚ :=
  calculateLineTotal taxCodes line

end Invoices

namespace Bills

/-- A line of the bill form as passed to the Bills page's
`calculateLineTotal`. -/
structure LineInput where
  quantity : ℚ
  unit_price : ℚ
  tax_code_id : String
deriving DecidableEq, Repr

/-- `calculateLineTotal` of the Bills page: `subtotal = quantity *
unit_price`, `vatRate = taxCode ? rate / 100 : 0`,
`vat_amount = subtotal * vatRate`, and — unlike the invoice version —
`line_total = subtotal + vatAmount`, the gross figure. -/
def calculateLineTotal (taxCodes : List TaxCode) (line : LineInput) :
    ℚ × ℚ :=
  let subtotal := line.quantity * line.unit_price
  let taxCode := taxCodes.find? (fun tc => tc.id == line.tax_code_id)
  let vatRate := match taxCode with
    | some tc => tc.rate / 100
    | none => 0
  let vatAmount := subtotal * vatRate
  (subtotal + vatAmount, vatAmount)

end Bills

/-- Round half away from zero to 2 decimal places, the rounding rule
named by the design's Money & Rounding section.  Stated from the spec's
words for comparison with the source calculators, which apply no
rounding. -/
def round2_spec (x : ℚ) : ℚ :=
  (if 0 ≤ x then ((⌊x * 100 + 1 / 2⌋ : ℤ) : ℚ)
   else -((⌊-(x * 100) + 1 / 2⌋ : ℤ) : ℚ)) / 100

/-! ## Banking page: reconciliation (`handleReconcile`,
`getMatchingSuggestions`) -/

/-- `toLowerCase` on the character list of a string. -/
def strLower (s : String) : String :=
  String.mk (s.data.map Char.toLower)

/-- Does the haystack start with the needle?  Recursion on both
character lists. -/
def charsStartWith : List Char → List Char → Bool
  | [], _ => true
  | _ :: _, [] => false
  | c :: cs, d :: ds => c == d && charsStartWith cs ds

/-- Does the needle occur contiguously inside the haystack? -/
def charsContain (needle : List Char) : List Char → Bool
  | [] => charsStartWith needle []
  | d :: ds => charsStartWith needle (d :: ds) || charsContain needle ds

/-- JavaScript `hay.includes(needle)`. -/
def strIncludes (hay needle : String) : Bool :=
  charsContain needle.data hay.data

/-- A `bank_transactions` row. -/
structure BankTransaction where
  id : String
  date : Int
  description : String
  amount : ℚ
  reference : Option String
  reconciled : Bool
  invoice_id : Option String
  bill_id : Option String
deriving DecidableEq, Repr

/-- The `type` argument of `handleReconcile`. -/
inductive MatchType where
  | invoice
  | bill
deriving DecidableEq, Repr

/-- The update object built by `handleReconcile`: `reconciled: true`
plus `invoice_id` or `bill_id` set to the chosen target, applied to the
matching row. -/
def applyReconcileUpdate (ty : MatchType) (itemId : String)
    (t : BankTransaction) : BankTransaction :=
  match ty with
  | .invoice => { t with reconciled := true, invoice_id := some itemId }
  | .bill => { t with reconciled := true, bill_id := some itemId }

/-- `handleReconcile` of the Banking page: update the row whose `id`
matches, unconditionally — the function reads neither the current
`reconciled` flag nor the current link, and has no failure outcome of
its own. -/
def handleReconcile (txs : List BankTransaction) (transactionId : String)
    (ty : MatchType) (itemId : String) : List BankTransaction :=
  txs.map (fun t =>
    if t.id == transactionId then applyReconcileUpdate ty itemId t else t)

/-- An invoice as held by the Banking page: fetched with
`status = 'sent'` and joined to its customer's name. -/
structure OpenInvoice where
  id : String
  invoice_number : String
  total : ℚ
  customer_name : Option String
deriving DecidableEq, Repr

/-- A bill as held by the Banking page: fetched with
`status ∈ {approved, awaiting_approval}` and joined to its supplier's
name. -/
structure OpenBill where
  id : String
  bill_number : String
  total : ℚ
  supplier_name : Option String
deriving DecidableEq, Repr

inductive Suggestion where
  | invoice (inv : OpenInvoice)
  | bill (b : OpenBill)
deriving DecidableEq, Repr

/-- The invoice predicate of `getMatchingSuggestions`:
`Math.abs(inv.total - tx.amount) < 0.01`, or the invoice number occurs
case-insensitively in the description, or the customer name is present,
non-empty (JavaScript truthiness) and occurs case-insensitively in the
description. -/
def invoiceMatches (tx : BankTransaction) (inv : OpenInvoice) : Bool :=
  decide (|inv.total - tx.amount| < (1 / 100 : ℚ))
    || strIncludes (strLower tx.description) (strLower inv.invoice_number)
    || (match inv.customer_name with
        | some n =>
          !(n == "") && strIncludes (strLower tx.description) (strLower n)
        | none => false)

/-- The bill predicate of `getMatchingSuggestions`:
`Math.abs(bill.total + tx.amount) < 0.01` or the analogous substring
tests. -/
def billMatches (tx : BankTransaction) (b : OpenBill) : Bool :=
  decide (|b.total + tx.amount| < (1 / 100 : ℚ))
    || strIncludes (strLower tx.description) (strLower b.bill_number)
    || (match b.supplier_name with
        | some n =>
          !(n == "") && strIncludes (strLower tx.description) (strLower n)
        | none => false)

/-- `getMatchingSuggestions` of the Banking page: invoices are
considered only for strictly positive amounts, bills only for strictly
negative ones, so a zero amount yields the empty list. -/
def getMatchingSuggestions (tx : BankTransaction)
    (invoices : List OpenInvoice) (bills : List OpenBill) :
    List Suggestion :=
  (if tx.amount > 0 then
    (invoices.filter (invoiceMatches tx)).map Suggestion.invoice
   else []) ++
  (if tx.amount < 0 then
    (bills.filter (billMatches tx)).map Suggestion.bill
   else [])

/-! ## Journal validation -/

/-- A journal line as submitted for posting (`debit_amount`,
`credit_amount`). -/
structure SubmittedLine where
  debit : ℚ
  credit : ℚ
deriving DecidableEq, Repr

/-- The `debit_or_credit_not_both` CHECK constraint on `journal_lines`
in the schema migration: a row is accepted exactly when one side is
strictly positive and the other is zero. -/
def debit_or_credit_not_both (l : SubmittedLine) : Bool :=
  (decide (l.debit > 0) && (l.credit == 0))
    || ((l.debit == 0) && decide (l.credit > 0))

inductive JournalError where
  | EmptyJournal
  | InvalidLine
  | Unbalanced
deriving DecidableEq, Repr

/-- A line is invalid when both debit and credit are non-zero, or both
are zero. -/
def invalidLine (l : SubmittedLine) : Bool :=
  (!(l.debit == 0) && !(l.credit == 0)) || ((l.debit == 0) && (l.credit == 0))

/-- Modelled from the spec: the repository's application code never
inserts journals (`src/` contains no `validateJournal`; the only
journal-write guard present is the per-line `debit_or_credit_not_both`
CHECK constraint above), so the journal-validation contract of the
Ledger Model section is modelled from the spec's words: reject an empty
list as `EmptyJournal`, a list with a line whose debit and credit are
both non-zero or both zero as `InvalidLine`, a list whose debit and
credit totals differ by more than `0.01` as `Unbalanced`, and accept
otherwise. -/
def validateJournal (lines : List SubmittedLine) :
    Except JournalError (List SubmittedLine) :=
  if lines.isEmpty then .error .EmptyJournal
  else if lines.any invalidLine then .error .InvalidLine
  else if (1 / 100 : ℚ) <
      |sumBy (fun l => l.debit) lines - sumBy (fun l => l.credit) lines| then
    .error .Unbalanced
  else .ok lines

/-! ## Supporting lemmas -/

theorem foldl_add_eq (f : α → ℚ) (init : ℚ) (l : List α) :
    l.foldl (fun s a => s + f a) init = init + (l.map f).sum := by
  induction l generalizing init with
  | nil => simp
  | cons a l ih => simp [List.foldl_cons, ih, add_assoc]

theorem sumBy_eq_sum (f : α → ℚ) (l : List α) :
    sumBy f l = (l.map f).sum := by
  simpa using foldl_add_eq f 0 l

theorem sumBy_debit_addTB (as : List TBAccount) (l : JournalLineRow) :
    sumBy (fun a => a.debit) (addTB as l)
      = sumBy (fun a => a.debit) as + l.debit_amount := by
  induction as with
  | nil => simp [addTB, sumBy_eq_sum]
  | cons a as ih =>
    by_cases h : a.account_name == l.account_name
    · simp [addTB, h, sumBy_eq_sum]; ring
    · simp only [addTB, h, if_neg, Bool.false_eq_true, not_false_iff]
      simp [sumBy_eq_sum] at ih ⊢
      linarith

theorem sumBy_credit_addTB (as : List TBAccount) (l : JournalLineRow) :
    sumBy (fun a => a.credit) (addTB as l)
      = sumBy (fun a => a.credit) as + l.credit_amount := by
  induction as with
  | nil => simp [addTB, sumBy_eq_sum]
  | cons a as ih =>
    by_cases h : a.account_name == l.account_name
    · simp [addTB, h, sumBy_eq_sum]; ring
    · simp only [addTB, h, if_neg, Bool.false_eq_true, not_false_iff]
      simp [sumBy_eq_sum] at ih ⊢
      linarith

theorem sumBy_debit_foldl_addTB (rows : List JournalLineRow)
    (acc : List TBAccount) :
    sumBy (fun a => a.debit) (rows.foldl addTB acc)
      = sumBy (fun a => a.debit) acc
        + sumBy (fun l => l.debit_amount) rows := by
  induction rows generalizing acc with
  | nil => simp [sumBy_eq_sum]
  | cons r rows ih =>
    simp only [List.foldl_cons, ih, sumBy_debit_addTB]
    simp [sumBy_eq_sum]; ring

theorem sumBy_credit_foldl_addTB (rows : List JournalLineRow)
    (acc : List TBAccount) :
    sumBy (fun a => a.credit) (rows.foldl addTB acc)
      = sumBy (fun a => a.credit) acc
        + sumBy (fun l => l.credit_amount) rows := by
  induction rows generalizing acc with
  | nil => simp [sumBy_eq_sum]
  | cons r rows ih =>
    simp only [List.foldl_cons, ih, sumBy_credit_addTB]
    simp [sumBy_eq_sum]; ring

theorem generateTrialBalance_totalDebits (rows : List JournalLineRow) :
    (generateTrialBalance rows).totalDebits
      = sumBy (fun l => l.debit_amount) rows := by
  simpa [generateTrialBalance, sumBy] using
    sumBy_debit_foldl_addTB rows []

theorem generateTrialBalance_totalCredits (rows : List JournalLineRow) :
    (generateTrialBalance rows).totalCredits
      = sumBy (fun l => l.credit_amount) rows := by
  simpa [generateTrialBalance, sumBy] using
    sumBy_credit_foldl_addTB rows []

theorem sumBy_addBalance (rs : List BSRow) (name : String) (amt : ℚ) :
    sumBy (fun r => r.balance) (addBalance rs name amt)
      = sumBy (fun r => r.balance) rs + amt := by
  induction rs with
  | nil => simp [addBalance, sumBy_eq_sum]
  | cons r rs ih =>
    by_cases h : r.account_name == name
    · simp [addBalance, h, sumBy_eq_sum]; ring
    · simp only [addBalance, h, if_neg, Bool.false_eq_true, not_false_iff]
      simp [sumBy_eq_sum] at ih ⊢
      linarith

theorem sumBy_foldl_bsStep_assets (rows : List JournalLineRow)
    (acc : List BSRow × List BSRow × List BSRow) :
    sumBy (fun r => r.balance) (rows.foldl bsStep acc).1
      = sumBy (fun r => r.balance) acc.1
        + sumBy (fun l => l.debit_amount - l.credit_amount)
            (rows.filter (fun l => l.account_type == "asset")) := by
  induction rows generalizing acc with
  | nil => simp [sumBy_eq_sum]
  | cons l rows ih =>
    simp only [List.foldl_cons, ih]
    by_cases h1 : l.account_type == "asset"
    · simp only [bsStep, h1, if_pos, sumBy_addBalance]
      simp [List.filter_cons, h1, sumBy_eq_sum]
      ring
    · by_cases h2 : l.account_type == "liability"
      · simp [bsStep, h1, h2, List.filter_cons]
      · by_cases h3 : l.account_type == "equity"
        · simp [bsStep, h1, h2, h3, List.filter_cons]
        · simp [bsStep, h1, h2, h3, List.filter_cons]

theorem sumBy_foldl_bsStep_liabilities (rows : List JournalLineRow)
    (acc : List BSRow × List BSRow × List BSRow) :
    sumBy (fun r => r.balance) (rows.foldl bsStep acc).2.1
      = sumBy (fun r => r.balance) acc.2.1
        + sumBy (fun l => l.credit_amount - l.debit_amount)
            (rows.filter (fun l => l.account_type == "liability")) := by
  induction rows generalizing acc with
  | nil => simp [sumBy_eq_sum]
  | cons l rows ih =>
    simp only [List.foldl_cons, ih]
    by_cases h1 : l.account_type == "asset"
    · have h2 : ¬(l.account_type == "liability") = true := by
        intro hc
        rw [beq_iff_eq] at h1 hc
        simp [hc] at h1
      simp [bsStep, h1, h2, List.filter_cons]
    · by_cases h2 : l.account_type == "liability"
      · simp only [bsStep, h1, h2, Bool.false_eq_true, if_neg, if_pos,
          not_false_iff, sumBy_addBalance]
        simp [List.filter_cons, h2, sumBy_eq_sum]
        ring
      · by_cases h3 : l.account_type == "equity"
        · simp [bsStep, h1, h2, h3, List.filter_cons]
        · simp [bsStep, h1, h2, h3, List.filter_cons]

theorem sumBy_foldl_bsStep_equity (rows : List JournalLineRow)
    (acc : List BSRow × List BSRow × List BSRow) :
    sumBy (fun r => r.balance) (rows.foldl bsStep acc).2.2
      = sumBy (fun r => r.balance) acc.2.2
        + sumBy (fun l => l.credit_amount - l.debit_amount)
            (rows.filter (fun l => l.account_type == "equity")) := by
  induction rows generalizing acc with
  | nil => simp [sumBy_eq_sum]
  | cons l rows ih =>
    simp only [List.foldl_cons, ih]
    by_cases h3 : l.account_type == "equity"
    · have h1 : ¬(l.account_type == "asset") = true := by
        intro hc
        rw [beq_iff_eq] at h3 hc
        simp [hc] at h3
      have h2 : ¬(l.account_type == "liability") = true := by
        intro hc
        rw [beq_iff_eq] at h3 hc
        simp [hc] at h3
      simp only [bsStep, h1, h2, h3, Bool.false_eq_true, if_neg, if_pos,
        not_false_iff, sumBy_addBalance]
      simp [List.filter_cons, h3, sumBy_eq_sum]
      ring
    · by_cases h1 : l.account_type == "asset"
      · simp [bsStep, h1, h3, List.filter_cons]
      · by_cases h2 : l.account_type == "liability"
        · simp [bsStep, h1, h2, h3, List.filter_cons]
        · simp [bsStep, h1, h2, h3, List.filter_cons]

theorem mem_names_addPL_self (rows : List PLRow) (name : String) (amt : ℚ) :
    name ∈ (addPL rows name amt).map (fun r => r.account_name) := by
  induction rows with
  | nil => simp [addPL]
  | cons r rs ih =>
    by_cases h : r.account_name == name
    · rw [beq_iff_eq] at h
      simp [addPL, h]
    · simp only [addPL, h, Bool.false_eq_true, if_neg, not_false_iff]
      simp only [List.map_cons, List.mem_cons]
      exact Or.inr ih

theorem mem_names_addPL_mono (rows : List PLRow) (name m : String) (amt : ℚ)
    (hm : m ∈ rows.map (fun r => r.account_name)) :
    m ∈ (addPL rows name amt).map (fun r => r.account_name) := by
  induction rows with
  | nil => simp at hm
  | cons r rs ih =>
    by_cases h : r.account_name == name
    · simp only [addPL, h, if_pos]
      simpa using hm
    · simp only [addPL, h, Bool.false_eq_true, if_neg, not_false_iff]
      simp only [List.map_cons, List.mem_cons] at hm ⊢
      rcases hm with hm | hm
      · exact Or.inl hm
      · exact Or.inr (ih hm)

theorem mem_income_foldl_plStep_mono (rows : List JournalLineRow)
    (acc : List PLRow × List PLRow) (m : String)
    (hm : m ∈ acc.1.map (fun r => r.account_name)) :
    m ∈ (rows.foldl plStep acc).1.map (fun r => r.account_name) := by
  induction rows generalizing acc with
  | nil => simpa using hm
  | cons l rows ih =>
    simp only [List.foldl_cons]
    refine ih (plStep acc l) ?_
    by_cases h1 : l.account_type == "income"
    · simpa [plStep, h1] using
        mem_names_addPL_mono acc.1 l.account_name m
          (l.credit_amount - l.debit_amount) hm
    · by_cases h2 : l.account_type == "expense"
      · simpa [plStep, h1, h2] using hm
      · simpa [plStep, h1, h2] using hm

theorem mem_expenses_foldl_plStep_mono (rows : List JournalLineRow)
    (acc : List PLRow × List PLRow) (m : String)
    (hm : m ∈ acc.2.map (fun r => r.account_name)) :
    m ∈ (rows.foldl plStep acc).2.map (fun r => r.account_name) := by
  induction rows generalizing acc with
  | nil => simpa using hm
  | cons l rows ih =>
    simp only [List.foldl_cons]
    refine ih (plStep acc l) ?_
    by_cases h1 : l.account_type == "income"
    · simpa [plStep, h1] using hm
    · by_cases h2 : l.account_type == "expense"
      · simpa [plStep, h1, h2] using
          mem_names_addPL_mono acc.2 l.account_name m
            (l.debit_amount - l.credit_amount) hm
      · simpa [plStep, h1, h2] using hm

theorem mem_income_foldl_plStep (rows : List JournalLineRow)
    (acc : List PLRow × List PLRow) (l : JournalLineRow) (hl : l ∈ rows)
    (ht : l.account_type = "income") :
    l.account_name ∈ (rows.foldl plStep acc).1.map (fun r => r.account_name) := by
  induction rows generalizing acc with
  | nil => simp at hl
  | cons r rows ih =>
    simp only [List.mem_cons] at hl
    simp only [List.foldl_cons]
    rcases hl with rfl | hl
    · refine mem_income_foldl_plStep_mono rows (plStep acc l) l.account_name ?_
      have h1 : (l.account_type == "income") = true := by
        rw [beq_iff_eq]; exact ht
      simpa [plStep, h1] using
        mem_names_addPL_self acc.1 l.account_name
          (l.credit_amount - l.debit_amount)
    · exact ih (plStep acc r) hl

theorem mem_expenses_foldl_plStep (rows : List JournalLineRow)
    (acc : List PLRow × List PLRow) (l : JournalLineRow) (hl : l ∈ rows)
    (ht : l.account_type = "expense") :
    l.account_name ∈ (rows.foldl plStep acc).2.map (fun r => r.account_name) := by
  induction rows generalizing acc with
  | nil => simp at hl
  | cons r rows ih =>
    simp only [List.mem_cons] at hl
    simp only [List.foldl_cons]
    rcases hl with rfl | hl
    · refine mem_expenses_foldl_plStep_mono rows (plStep acc l) l.account_name ?_
      have h1 : (l.account_type == "expense") = true := by
        rw [beq_iff_eq]; exact ht
      have h2 : ¬(l.account_type == "income") = true := by
        intro hc
        rw [beq_iff_eq] at hc
        simp [hc] at ht
      simpa [plStep, h1, h2] using
        mem_names_addPL_self acc.2 l.account_name
          (l.debit_amount - l.credit_amount)
    · exact ih (plStep acc r) hl


/-! ## Claim C1: the journal-validation contract -/

theorem invalidLine_iff (l : SubmittedLine) :
    invalidLine l = true ↔
      ((l.debit ≠ 0 ∧ l.credit ≠ 0) ∨ (l.debit = 0 ∧ l.credit = 0)) := by
  simp [invalidLine]

/-- C1: `validateJournal` fails with `EmptyJournal` exactly on the empty
line list, with `InvalidLine` exactly when some line has both debit and
credit non-zero or both zero, with `Unbalanced` exactly when the lines
are well formed but the debit and credit totals differ by more than
`0.01`, succeeds exactly otherwise, and never accepts a journal whose
totals differ by more than `0.01`. -/
theorem validateJournal_contract (lines : List SubmittedLine) :
    (validateJournal lines = .error .EmptyJournal ↔ lines = [])
    ∧ (validateJournal lines = .error .InvalidLine ↔
        lines ≠ [] ∧ ∃ l ∈ lines,
          (l.debit ≠ 0 ∧ l.credit ≠ 0) ∨ (l.debit = 0 ∧ l.credit = 0))
    ∧ (validateJournal lines = .error .Unbalanced ↔
        lines ≠ []
        ∧ (∀ l ∈ lines,
            ¬((l.debit ≠ 0 ∧ l.credit ≠ 0) ∨ (l.debit = 0 ∧ l.credit = 0)))
        ∧ (1 / 100 : ℚ) <
            |sumBy (fun l => l.debit) lines - sumBy (fun l => l.credit) lines|)
    ∧ (validateJournal lines = .ok lines ↔
        lines ≠ []
        ∧ (∀ l ∈ lines,
            ¬((l.debit ≠ 0 ∧ l.credit ≠ 0) ∨ (l.debit = 0 ∧ l.credit = 0)))
        ∧ |sumBy (fun l => l.debit) lines - sumBy (fun l => l.credit) lines|
            ≤ 1 / 100)
    ∧ (∀ js, validateJournal lines = .ok js →
        |sumBy (fun l => l.debit) lines - sumBy (fun l => l.credit) lines|
          ≤ 1 / 100) := by
  unfold validateJournal
  split_ifs with h1 h2 h3
  · have hnil : lines = [] := by simpa [List.isEmpty_iff] using h1
    subst hnil
    exact ⟨iff_of_true rfl rfl,
      iff_of_false (by simp) (by simp),
      iff_of_false (by simp) (by simp),
      iff_of_false (by simp) (by simp),
      by simp⟩
  · have hne : lines ≠ [] := by simpa [List.isEmpty_iff] using h1
    have hex : ∃ l ∈ lines,
        (l.debit ≠ 0 ∧ l.credit ≠ 0) ∨ (l.debit = 0 ∧ l.credit = 0) := by
      rcases List.any_eq_true.mp h2 with ⟨l, hl, hbad⟩
      exact ⟨l, hl, (invalidLine_iff l).mp hbad⟩
    have hnall : ¬(∀ l ∈ lines,
        ¬((l.debit ≠ 0 ∧ l.credit ≠ 0) ∨ (l.debit = 0 ∧ l.credit = 0))) := by
      intro hall
      rcases hex with ⟨l, hl, hbad⟩
      exact hall l hl hbad
    exact ⟨iff_of_false (by simp) hne,
      iff_of_true rfl ⟨hne, hex⟩,
      iff_of_false (by simp) (fun h => hnall h.2.1),
      iff_of_false (by simp) (fun h => hnall h.2.1),
      fun js h => absurd h (by simp)⟩
  · have hne : lines ≠ [] := by simpa [List.isEmpty_iff] using h1
    have hall : ∀ l ∈ lines,
        ¬((l.debit ≠ 0 ∧ l.credit ≠ 0) ∨ (l.debit = 0 ∧ l.credit = 0)) := by
      intro l hl hbad
      exact h2 (List.any_eq_true.mpr ⟨l, hl, (invalidLine_iff l).mpr hbad⟩)
    exact ⟨iff_of_false (by simp) hne,
      iff_of_false (by simp) (fun h => by
        rcases h.2 with ⟨l, hl, hbad⟩
        exact hall l hl hbad),
      iff_of_true rfl ⟨hne, hall, h3⟩,
      iff_of_false (by simp) (fun h => absurd h3 (not_lt.mpr h.2.2)),
      fun js h => absurd h (by simp)⟩
  · have hne : lines ≠ [] := by simpa [List.isEmpty_iff] using h1
    have hall : ∀ l ∈ lines,
        ¬((l.debit ≠ 0 ∧ l.credit ≠ 0) ∨ (l.debit = 0 ∧ l.credit = 0)) := by
      intro l hl hbad
      exact h2 (List.any_eq_true.mpr ⟨l, hl, (invalidLine_iff l).mpr hbad⟩)
    have hle :
        |sumBy (fun l => l.debit) lines - sumBy (fun l => l.credit) lines|
          ≤ 1 / 100 := not_lt.mp h3
    exact ⟨iff_of_false (by simp) hne,
      iff_of_false (by simp) (fun h => by
        rcases h.2 with ⟨l, hl, hbad⟩
        exact hall l hl hbad),
      iff_of_false (by simp) (fun h => absurd h.2.2 h3),
      iff_of_true rfl ⟨hne, hall, hle⟩,
      fun js _ => hle⟩

/-- C1 witness: the balanced two-line journal `{debit 100} / {credit 100}`
is accepted, and the contract then bounds its debit/credit discrepancy. -/
theorem validateJournal_contract_witness :
    |sumBy (fun l => l.debit) [(⟨100, 0⟩ : SubmittedLine), ⟨0, 100⟩]
      - sumBy (fun l => l.credit) [(⟨100, 0⟩ : SubmittedLine), ⟨0, 100⟩]|
      ≤ 1 / 100 :=
  (validateJournal_contract [⟨100, 0⟩, ⟨0, 100⟩]).2.2.2.2
    [⟨100, 0⟩, ⟨0, 100⟩] (by rfl)


/-! ## Claim C2: committing a match -/

/-- C2 counterexample: `handleReconcile` invoked on an already-reconciled
transaction (`reconciled = true`, linked to invoice `inv-A`) does not
fail and does not leave the state unchanged — it succeeds and overwrites
the link with `inv-B`. -/
theorem handleReconcile_already_reconciled_cex :
    (⟨"t1", 0, "x", 100, none, true, some "inv-A", none⟩ :
        BankTransaction).reconciled = true
    ∧ handleReconcile [⟨"t1", 0, "x", 100, none, true, some "inv-A", none⟩]
        "t1" .invoice "inv-B"
      = [⟨"t1", 0, "x", 100, none, true, some "inv-B", none⟩]
    ∧ handleReconcile [⟨"t1", 0, "x", 100, none, true, some "inv-A", none⟩]
        "t1" .invoice "inv-B"
      ≠ [⟨"t1", 0, "x", 100, none, true, some "inv-A", none⟩] := by
  refine ⟨rfl, by rfl, ?_⟩
  intro h
  have := congrArg (fun l => (l.headD
    ⟨"", 0, "", 0, none, false, none, none⟩).invoice_id) h
  simp [handleReconcile, applyReconcileUpdate] at this

/-- C2 (amended): `handleReconcile` applies its update unconditionally —
even when the targeted transaction is already reconciled, the call
succeeds, keeps `reconciled = true` and overwrites the chosen link with
the new target; no `AlreadyReconciled` failure exists in the code. -/
theorem handleReconcile_overwrites (t : BankTransaction) (ty : MatchType)
    (itemId : String) (_h : t.reconciled = true) :
    handleReconcile [t] t.id ty itemId = [applyReconcileUpdate ty itemId t]
    ∧ (applyReconcileUpdate ty itemId t).reconciled = true
    ∧ (applyReconcileUpdate MatchType.invoice itemId t).invoice_id
        = some itemId
    ∧ (applyReconcileUpdate MatchType.bill itemId t).bill_id = some itemId := by
  refine ⟨?_, ?_, rfl, rfl⟩
  · simp [handleReconcile]
  · cases ty <;> rfl

/-- C2 witness: the amended statement applied to a concrete transaction
that is already reconciled and linked to invoice `inv-A`. -/
theorem handleReconcile_overwrites_witness :
    handleReconcile [⟨"t1", 0, "x", 100, none, true, some "inv-A", none⟩]
        "t1" MatchType.invoice "inv-B"
      = [applyReconcileUpdate MatchType.invoice "inv-B"
          ⟨"t1", 0, "x", 100, none, true, some "inv-A", none⟩]
    ∧ (applyReconcileUpdate MatchType.invoice "inv-B"
        ⟨"t1", 0, "x", 100, none, true, some "inv-A", none⟩).reconciled = true
    ∧ (applyReconcileUpdate MatchType.invoice "inv-B"
        ⟨"t1", 0, "x", 100, none, true, some "inv-A", none⟩).invoice_id
        = some "inv-B"
    ∧ (applyReconcileUpdate MatchType.bill "inv-B"
        ⟨"t1", 0, "x", 100, none, true, some "inv-A", none⟩).bill_id
        = some "inv-B" :=
  handleReconcile_overwrites
    ⟨"t1", 0, "x", 100, none, true, some "inv-A", none⟩
    MatchType.invoice "inv-B" (by rfl)


/-! ## Claim C3: the Trial Balance tolerance -/

/-- C3 counterexample: a single journal line of `0.01` debit gives a
debit/credit discrepancy of exactly `0.01`, which the claim calls
balanced but `generateTrialBalance` reports as unbalanced (the code
compares with strict `< 0.01`). -/
theorem trialBalance_epsilon_cex :
    (generateTrialBalance [⟨"Cash", "asset", 1 / 100, 0, 0⟩]).balanced = false
    ∧ |(generateTrialBalance [⟨"Cash", "asset", 1 / 100, 0, 0⟩]).totalDebits
        - (generateTrialBalance
            [⟨"Cash", "asset", 1 / 100, 0, 0⟩]).totalCredits|
        ≤ 1 / 100 := by
  decide

/-- C3 (amended): `totalDebits` and `totalCredits` are the sums of all
debit and credit amounts, and `balanced` is true exactly when their
discrepancy is strictly below `0.01` — a discrepancy of exactly `0.01`
is reported as unbalanced. -/
theorem trialBalance_balanced_iff (rows : List JournalLineRow) :
    (generateTrialBalance rows).totalDebits
        = sumBy (fun l => l.debit_amount) rows
    ∧ (generateTrialBalance rows).totalCredits
        = sumBy (fun l => l.credit_amount) rows
    ∧ ((generateTrialBalance rows).balanced = true ↔
        |sumBy (fun l => l.debit_amount) rows
          - sumBy (fun l => l.credit_amount) rows| < 1 / 100) := by
  refine ⟨generateTrialBalance_totalDebits rows,
    generateTrialBalance_totalCredits rows, ?_⟩
  have hd : sumBy (fun a => a.debit) (rows.foldl addTB [])
      = sumBy (fun l => l.debit_amount) rows :=
    generateTrialBalance_totalDebits rows
  have hc : sumBy (fun a => a.credit) (rows.foldl addTB [])
      = sumBy (fun l => l.credit_amount) rows :=
    generateTrialBalance_totalCredits rows
  have hb : (generateTrialBalance rows).balanced
      = decide (|sumBy (fun a => a.debit) (rows.foldl addTB [])
          - sumBy (fun a => a.credit) (rows.foldl addTB [])|
          < (1 / 100 : ℚ)) := rfl
  rw [hb, decide_eq_true_iff, hd, hc]

/-- C3 witness: a balanced two-line journal (`100` debit to Cash,
`100` credit to Sales) is reported balanced. -/
theorem trialBalance_balanced_iff_witness :
    (generateTrialBalance [⟨"Cash", "asset", 100, 0, 0⟩,
      ⟨"Sales", "income", 0, 100, 0⟩]).balanced = true :=
  (trialBalance_balanced_iff [⟨"Cash", "asset", 100, 0, 0⟩,
    ⟨"Sales", "income", 0, 100, 0⟩]).2.2.mpr (by decide)

/-! ## Claim C4: the Balance Sheet and the date range -/

/-- C4 counterexample: an asset posting dated `5`, after the report's
`to` date `3`, still contributes its full `100` to `totalAssets` — the
balance-sheet query has no upper date bound. -/
theorem balanceSheet_date_cex :
    ((5 : Int) > 3)
    ∧ (balanceSheetReport [⟨"Cash", "asset", 100, 0, 5⟩] 0 3).totalAssets
        = 100
    ∧ (balanceSheetReport [⟨"Cash", "asset", 100, 0, 5⟩] 0 3).totalAssets
        ≠ 0 := by
  refine ⟨by decide, by decide, by decide⟩

/-- C4 (amended): the Balance Sheet ignores the date range entirely —
its totals are sums over every posting in the store, of `debit - credit`
for assets and `credit - debit` for liabilities and equity, with no date
restriction, so postings dated after `to` contribute. -/
theorem balanceSheet_ignores_range (db : List JournalLineRow)
    (dateFrom dateTo dateFrom' dateTo' : Int) :
    balanceSheetReport db dateFrom dateTo
      = balanceSheetReport db dateFrom' dateTo'
    ∧ (balanceSheetReport db dateFrom dateTo).totalAssets
        = sumBy (fun l => l.debit_amount - l.credit_amount)
            (db.filter (fun l => l.account_type == "asset"))
    ∧ (balanceSheetReport db dateFrom dateTo).totalLiabilities
        = sumBy (fun l => l.credit_amount - l.debit_amount)
            (db.filter (fun l => l.account_type == "liability"))
    ∧ (balanceSheetReport db dateFrom dateTo).totalEquity
        = sumBy (fun l => l.credit_amount - l.debit_amount)
            (db.filter (fun l => l.account_type == "equity")) := by
  refine ⟨rfl, ?_, ?_, ?_⟩
  · simpa [balanceSheetReport, generateBalanceSheet, sumBy] using
      sumBy_foldl_bsStep_assets db ([], [], [])
  · simpa [balanceSheetReport, generateBalanceSheet, sumBy] using
      sumBy_foldl_bsStep_liabilities db ([], [], [])
  · simpa [balanceSheetReport, generateBalanceSheet, sumBy] using
      sumBy_foldl_bsStep_equity db ([], [], [])


/-! ## Claim C5: the invoice line calculator applies no rounding -/

/-- C5 counterexample: for `quantity = 0.25` and `unit_price = 0.10` the
code stores the raw product `0.025`, not the claimed
`round2(0.025) = 0.03`. -/
theorem invoices_rounding_cex :
    (Invoices.calculateLineTotal [] ⟨1 / 4, 1 / 10, ""⟩).1 = 1 / 40
    ∧ round2_spec ((1 / 4 : ℚ) * (1 / 10)) = 3 / 100
    ∧ (Invoices.calculateLineTotal [] ⟨1 / 4, 1 / 10, ""⟩).1
        ≠ round2_spec ((1 / 4 : ℚ) * (1 / 10)) := by
  refine ⟨by decide, by decide, by decide⟩

/-- C5 (amended): `calculateLineTotal` is exact — the net amount is the
raw product `quantity * unit_price` with no rounding, the VAT amount is
`net * rate / 100` with no rounding (`0` when the tax code is absent,
the same as a `0%` rate), no per-line gross is produced, and the row
inserted into `invoice_lines` stores exactly these two numbers. -/
theorem invoices_calculateLineTotal_exact (taxCodes : List TaxCode)
    (line : Invoices.LineInput) :
    (Invoices.calculateLineTotal taxCodes line).1
      = line.quantity * line.unit_price
    ∧ (Invoices.calculateLineTotal taxCodes line).2
      = line.quantity * line.unit_price
          * (((taxCodes.find? (fun tc => tc.id == line.tax_code_id)).map
              (fun tc => tc.rate)).getD 0) / 100
    ∧ Invoices.lineData taxCodes line
        = Invoices.calculateLineTotal taxCodes line := by
  refine ⟨rfl, ?_, rfl⟩
  unfold Invoices.calculateLineTotal
  cases h : taxCodes.find? (fun tc => tc.id == line.tax_code_id) with
  | none => simp [h]
  | some tc => simp [h]

/-! ## Claim C6: invoice lines versus bill lines -/

/-- C6 counterexample: one unit at `100` under a `20%` tax code gives
`line_total = 100` on the invoice side but `line_total = 120` on the
bill side — the bill calculator stores the gross amount. -/
theorem bills_vs_invoices_line_total_cex :
    (Invoices.calculateLineTotal [⟨"s", 20⟩] ⟨1, 100, "s"⟩).1 = 100
    ∧ (Bills.calculateLineTotal [⟨"s", 20⟩] ⟨1, 100, "s"⟩).1 = 120
    ∧ (Bills.calculateLineTotal [⟨"s", 20⟩] ⟨1, 100, "s"⟩).1
        ≠ (Invoices.calculateLineTotal [⟨"s", 20⟩] ⟨1, 100, "s"⟩).1 := by
  refine ⟨by decide, by decide, by decide⟩

/-- C6 (amended): for identical quantity, unit price and tax code the
two calculators agree on `vat_amount`, but the bill calculator's
`line_total` is the invoice calculator's `line_total` plus the VAT
amount — they agree only when the VAT is zero. -/
theorem bills_invoices_agree_on_vat (taxCodes : List TaxCode) (q p : ℚ)
    (tcid : String) :
    (Bills.calculateLineTotal taxCodes ⟨q, p, tcid⟩).2
      = (Invoices.calculateLineTotal taxCodes ⟨q, p, tcid⟩).2
    ∧ (Bills.calculateLineTotal taxCodes ⟨q, p, tcid⟩).1
      = (Invoices.calculateLineTotal taxCodes ⟨q, p, tcid⟩).1
        + (Invoices.calculateLineTotal taxCodes ⟨q, p, tcid⟩).2 := by
  unfold Bills.calculateLineTotal Invoices.calculateLineTotal
  cases h : taxCodes.find? (fun tc => tc.id == tcid) with
  | none => simp [h]
  | some tc =>
    simp only [h]
    constructor
    · ring
    · ring


/-! ## Claim C7: match suggestions -/

/-- C7 counterexample: a transaction of `100` against an open invoice of
`100.01` and an unrelated description — the discrepancy is exactly
`0.01`, which the claim admits (`≤ 0.01`) but the code rejects
(strict `< 0.01`), so no suggestion is produced. -/
theorem suggestions_epsilon_cex :
    ((100 : ℚ) > 0)
    ∧ |(100 + 1 / 100 : ℚ) - 100| ≤ 1 / 100
    ∧ getMatchingSuggestions ⟨"t1", 0, "x", 100, none, false, none, none⟩
        [⟨"i1", "INV-1", 100 + 1 / 100, none⟩] [] = [] := by
  refine ⟨by decide, by decide, by decide⟩

/-- C7 (amended): for a strictly positive amount the suggestions are
exactly the fetched open invoices with `|total - amount| < 0.01`
(strict) or a case-insensitive substring match on the invoice number or
customer name, and a zero amount yields no suggestions. -/
theorem getMatchingSuggestions_spec (tx : BankTransaction)
    (invs : List OpenInvoice) (bills : List OpenBill) :
    (∀ inv : OpenInvoice,
      Suggestion.invoice inv ∈ getMatchingSuggestions tx invs bills ↔
        tx.amount > 0 ∧ inv ∈ invs ∧ invoiceMatches tx inv = true)
    ∧ (tx.amount = 0 → getMatchingSuggestions tx invs bills = []) := by
  constructor
  · intro inv
    unfold getMatchingSuggestions
    by_cases hpos : tx.amount > 0
    · have hneg : ¬tx.amount < 0 := not_lt.mpr (le_of_lt hpos)
      simp [hpos, hneg, List.mem_map, List.mem_filter, and_assoc]
    · by_cases hneg : tx.amount < 0
      · simp [hpos, hneg, List.mem_map]
      · simp [hpos, hneg]
  · intro h0
    unfold getMatchingSuggestions
    simp [h0]

/-- C7 witness: a `120` payment whose description quotes the invoice
number is suggested against the matching open `120` invoice. -/
theorem getMatchingSuggestions_spec_witness :
    Suggestion.invoice ⟨"i1", "INV-1001", 120, none⟩
      ∈ getMatchingSuggestions
          ⟨"t1", 0, "Payment INV-1001", 120, none, false, none, none⟩
          [⟨"i1", "INV-1001", 120, none⟩] [] :=
  ((getMatchingSuggestions_spec
      ⟨"t1", 0, "Payment INV-1001", 120, none, false, none, none⟩
      [⟨"i1", "INV-1001", 120, none⟩] []).1
    ⟨"i1", "INV-1001", 120, none⟩).mpr (by decide)

/-! ## Claim C8: the VAT box identities -/

/-- C8: in every generated VAT return, `box3 = box1 + box2` and
`box5 = box3 - box4`, with `box2 = box8 = box9 = 0`. -/
theorem vatReturn_box_identities (invoices : List InvoiceRow)
    (bills : List BillRow) (dateFrom dateTo : Int) :
    (generateVATReturn invoices bills dateFrom dateTo).box3
      = (generateVATReturn invoices bills dateFrom dateTo).box1
        + (generateVATReturn invoices bills dateFrom dateTo).box2
    ∧ (generateVATReturn invoices bills dateFrom dateTo).box5
      = (generateVATReturn invoices bills dateFrom dateTo).box3
        - (generateVATReturn invoices bills dateFrom dateTo).box4
    ∧ (generateVATReturn invoices bills dateFrom dateTo).box2 = 0
    ∧ (generateVATReturn invoices bills dateFrom dateTo).box8 = 0
    ∧ (generateVATReturn invoices bills dateFrom dateTo).box9 = 0 :=
  ⟨rfl, rfl, rfl, rfl, rfl⟩

/-! ## Claim C9: zero-activity rows in the Profit & Loss -/

/-- C9 counterexample: two `Sales` income lines of `100` credit and
`100` debit cancel to a net of zero, yet the report keeps the
`Sales` row with total `0` — zero rows are not omitted. -/
theorem profitLoss_zero_row_cex :
    (profitLossReport [⟨"Sales", "income", 0, 100, 1⟩,
        ⟨"Sales", "income", 100, 0, 1⟩] 0 2).income = [⟨"Sales", 0⟩] := by
  decide

/-- C9 (amended): far from omitting zero rows, the Profit & Loss keeps a
row for every income or expense account that has at least one journal
line in the date range, whatever its net total. -/
theorem profitLoss_rows_not_omitted (db : List JournalLineRow)
    (dateFrom dateTo : Int) (l : JournalLineRow) (hl : l ∈ db)
    (hfrom : dateFrom ≤ l.date) (hto : l.date ≤ dateTo) :
    (l.account_type = "income" →
      l.account_name ∈ (profitLossReport db dateFrom dateTo).income.map
        (fun r => r.account_name))
    ∧ (l.account_type = "expense" →
      l.account_name ∈ (profitLossReport db dateFrom dateTo).expenses.map
        (fun r => r.account_name)) := by
  have hmem : l ∈ db.filter
      (fun l => decide (dateFrom ≤ l.date) && decide (l.date ≤ dateTo)) := by
    rw [List.mem_filter]
    exact ⟨hl, by simp [hfrom, hto]⟩
  exact ⟨fun ht => mem_income_foldl_plStep _ ([], []) l hmem ht,
    fun ht => mem_expenses_foldl_plStep _ ([], []) l hmem ht⟩

/-- C9 witness: the amended statement applied to the cancelling `Sales`
lines — the zero-total `Sales` row is present in the report. -/
theorem profitLoss_rows_not_omitted_witness :
    "Sales" ∈ (profitLossReport [⟨"Sales", "income", 0, 100, 1⟩,
        ⟨"Sales", "income", 100, 0, 1⟩] 0 2).income.map
      (fun r => r.account_name) :=
  (profitLoss_rows_not_omitted
      [⟨"Sales", "income", 0, 100, 1⟩, ⟨"Sales", "income", 100, 0, 1⟩]
      0 2 ⟨"Sales", "income", 0, 100, 1⟩
      (by decide) (by decide) (by decide)).1 rfl

/-! ## Claim C10: the VAT return ignores invoice and bill status -/

theorem sumBy_map (g : β → ℚ) (f : α → β) (l : List α) :
    sumBy g (l.map f) = sumBy (fun a => g (f a)) l := by
  simp only [sumBy_eq_sum, List.map_map]
  rfl

/-- C10: rewriting every invoice's and every bill's `status` leaves the
VAT return unchanged, and each box is the plain date-filtered sum — all
statuses (draft, sent, paid, overdue, cancelled) contribute alike. -/
theorem vatReturn_ignores_status (invoices : List InvoiceRow)
    (bills : List BillRow) (dateFrom dateTo : Int)
    (σ : InvoiceRow → String) (τ : BillRow → String) :
    generateVATReturn (invoices.map (fun i => { i with status := σ i }))
        (bills.map (fun b => { b with status := τ b })) dateFrom dateTo
      = generateVATReturn invoices bills dateFrom dateTo
    ∧ (generateVATReturn invoices bills dateFrom dateTo).box1
        = sumBy (fun i => i.vat_amount) (invoices.filter
            (fun i => decide (dateFrom ≤ i.date) && decide (i.date ≤ dateTo)))
    ∧ (generateVATReturn invoices bills dateFrom dateTo).box6
        = sumBy (fun i => i.total - i.vat_amount) (invoices.filter
            (fun i => decide (dateFrom ≤ i.date) && decide (i.date ≤ dateTo)))
    ∧ (generateVATReturn invoices bills dateFrom dateTo).box4
        = sumBy (fun b => b.vat_amount) (bills.filter
            (fun b => decide (dateFrom ≤ b.date) && decide (b.date ≤ dateTo)))
    ∧ (generateVATReturn invoices bills dateFrom dateTo).box7
        = sumBy (fun b => b.total - b.vat_amount) (bills.filter
            (fun b => decide (dateFrom ≤ b.date) && decide (b.date ≤ dateTo))) := by
  refine ⟨?_, rfl, rfl, rfl, rfl⟩
  simp only [generateVATReturn, List.filter_map, sumBy_map]
  rfl

end Ledgerly
